import Mathlib

/-!
Verification of the GameGen CLI (src/cli.py) against its natural-language
specification.  The Python code is shallowly embedded: JSON/Python values
become the inductive type `JVal`, dictionary access and iteration become
total Lean functions returning `Option` (where `none` models a raised
Python exception such as `AttributeError`/`TypeError`), and the functions
of interest (`_determine_required_scripts`, `generate_spec`'s text branch,
`generate_scripts`, `_fallback_scripts`, `copy_assets`, and the control
flow of `cmd_new`) are translated line by line.
-/

/-- A JSON value as decoded by Python's `json.loads` (and, at the same
time, the fragment of Python values that `cli.py` manipulates: `None` is
`null`, dictionaries are `obj`, lists are `arr`).  Numbers are modelled as
integers; `cli.py` never inspects a numeric value except for truthiness,
for which the integer model is adequate on the inputs considered here. -/
inductive JVal where
  | null
  | bool (b : Bool)
  | num (n : Int)
  | str (s : String)
  | arr (elems : List JVal)
  | obj (fields : List (String × JVal))

/-- First-match association-list lookup.  JSON objects decoded by
`json.loads` have pairwise-distinct keys, so first match and last match
coincide on every value this development manipulates. -/
def assoc : List (String × JVal) → String → Option JVal
  | [], _ => none
  | (k, v) :: rest, key => if k = key then some v else assoc rest key

/-- Python truthiness (`bool(x)`) on the embedded values. -/
def truthy : JVal → Bool
  | .null => false
  | .bool b => b
  | .num n => n != 0
  | .str s => s ≠ ""
  | .arr l => !l.isEmpty
  | .obj l => !l.isEmpty

/-- Python `d.get(key)`: `none` models the `AttributeError` raised when the
receiver is not a dictionary; a missing key yields Python `None`, i.e.
`JVal.null`. -/
def dict_get : JVal → String → Option JVal
  | .obj fields, key => some ((assoc fields key).getD .null)
  | _, _ => none

/-- Python `d.get(key, default)`. -/
def dict_getD : JVal → String → JVal → Option JVal
  | .obj fields, key, dflt => some ((assoc fields key).getD dflt)
  | _, _, _ => none

/-- Python iteration `for x in v`: lists yield their elements, strings
their one-character substrings, dictionaries their keys; iterating any
other value raises `TypeError`, modelled by `none`. -/
def iterElems : JVal → Option (List JVal)
  | .arr l => some l
  | .str s => some (s.toList.map fun c => .str (String.mk [c]))
  | .obj fields => some (fields.map fun f => .str f.1)
  | _ => none

/-- Python `v or dflt`. -/
def pyOr (v dflt : JVal) : JVal := if truthy v then v else dflt

/-- The characters stripped by Python's `str.strip()` (ASCII whitespace;
the code never feeds it non-ASCII whitespace). -/
def pyIsSpace (c : Char) : Bool :=
  c = ' ' || c = '\t' || c = '\n' || c = '\r' || c = '\x0b' || c = '\x0c'

/-- Python `s.strip()`. -/
def pyStrip (s : String) : String :=
  String.mk (((s.toList.dropWhile pyIsSpace).reverse.dropWhile pyIsSpace).reverse)

/-- Python `s.endswith(suffix)`. -/
def pyEndsWith (s sfx : String) : Bool := sfx.toList.isSuffixOf s.toList

/-- Set insertion on an insertion-ordered duplicate-free list; models
Python's `set.add` (the sets in `_determine_required_scripts` are only
observed through membership, emptiness and `sorted(...)`). -/
def insertIfAbsent (l : List String) (s : String) : List String :=
  if s ∈ l then l else l ++ [s]

/-- A `foldl` in the `Option` monad, modelling a Python `for` loop whose
body may raise. -/
def optFoldl (f : β → α → Option β) : List α → β → Option β
  | [], b => some b
  | a :: as, b => (f b a).bind (optFoldl f as)

/-- Body of the `for enemy in scene.get("enemies", []) or []` loop of
`GeminiClient._determine_required_scripts` (src/cli.py lines 394–397). -/
def enemyStep (required : List String) (enemy : JVal) : Option (List String) :=
  (dict_get enemy "controller").bind fun e_ctrl =>
  match e_ctrl with
  | .str s => if pyEndsWith s ".cs" then some (insertIfAbsent required ("Assets/Scripts/" ++ s)) else some required
  | _ => some required

/-- Body of the `for ui in scene.get("ui", []) or []` loop
(src/cli.py lines 404–407). -/
def uiStep (onclick : List String) (ui : JVal) : Option (List String) :=
  (dict_get ui "onClick").bind fun name =>
  match name with
  | .str s => if pyStrip s = "" then some onclick else some (insertIfAbsent onclick (pyStrip s))
  | _ => some onclick

/-- Body of the `for scene in spec.get("scenes", []) or []` loop
(src/cli.py lines 388–407), threading the pair
`(required_paths, onclick_names)`. -/
def sceneStep (st : List String × List String) (scene : JVal) : Option (List String × List String) :=
  (dict_get scene "player").bind fun playerRaw =>
  let player := pyOr playerRaw (.obj [])
  (dict_get player "controller").bind fun controller =>
  let required :=
    match controller with
    | .str s => if pyEndsWith s ".cs" then insertIfAbsent st.1 ("Assets/Scripts/" ++ s) else st.1
    | _ => st.1
  (dict_getD scene "enemies" (.arr [])).bind fun enemiesRaw =>
  (iterElems (pyOr enemiesRaw (.arr []))).bind fun enemies =>
  (optFoldl enemyStep enemies required).bind fun required =>
  (dict_get scene "collectibles").bind fun collectibles =>
  let required := if truthy collectibles then insertIfAbsent required "Assets/Scripts/Collectible.cs" else required
  (dict_getD scene "ui" (.arr [])).bind fun uiRaw =>
  (iterElems (pyOr uiRaw (.arr []))).bind fun uiList =>
  (optFoldl uiStep uiList st.2).bind fun onclick =>
  some (required, onclick)

/-- `GeminiClient._determine_required_scripts` (src/cli.py lines 384–413):
returns `(required_paths, onclick_names)`, or `none` when the Python code
raises. -/
def determine_required_scripts (spec : JVal) : Option (List String × List String) :=
  (dict_getD spec "scenes" (.arr [])).bind fun scenesRaw =>
  (iterElems (pyOr scenesRaw (.arr []))).bind fun scenes =>
  (optFoldl sceneStep scenes ([], [])).bind fun st =>
  let required := if st.2.isEmpty then st.1 else insertIfAbsent st.1 "Assets/Scripts/GameUIScripts.cs"
  some (required, st.2)

/-! Derived accessors: the scene, enemy and UI lists that the resolver's
loops iterate over, read off the same way the source reads them.  They let
the theorems below quantify over "every scene / enemy / UI element". -/

/-- The list of scenes iterated by the resolver's outer loop. -/
def docScenes (spec : JVal) : Option (List JVal) :=
  (dict_getD spec "scenes" (.arr [])).bind fun raw => iterElems (pyOr raw (.arr []))

/-- The list of enemies iterated for one scene. -/
def sceneEnemies (scene : JVal) : Option (List JVal) :=
  (dict_getD scene "enemies" (.arr [])).bind fun raw => iterElems (pyOr raw (.arr []))

/-- The list of UI elements iterated for one scene. -/
def sceneUIs (scene : JVal) : Option (List JVal) :=
  (dict_getD scene "ui" (.arr [])).bind fun raw => iterElems (pyOr raw (.arr []))

/-- The required path contributed by a scene's player controller field. -/
def playerPaths (scene : JVal) : List String :=
  match (dict_get scene "player").bind (fun p => dict_get (pyOr p (.obj [])) "controller") with
  | some (.str s) => if pyEndsWith s ".cs" then ["Assets/Scripts/" ++ s] else []
  | _ => []

/-- The required path contributed by one enemy's controller field. -/
def enemyPaths (enemy : JVal) : List String :=
  match dict_get enemy "controller" with
  | some (.str s) => if pyEndsWith s ".cs" then ["Assets/Scripts/" ++ s] else []
  | _ => []

/-- The action name contributed by one UI element's onClick field. -/
def uiClicks (ui : JVal) : List String :=
  match dict_get ui "onClick" with
  | some (.str s) => if pyStrip s = "" then [] else [pyStrip s]
  | _ => []

/-- Whether a scene's collectibles field is truthy (fires the
`Collectible.cs` rule). -/
def collectiblesTruthy (scene : JVal) : Bool :=
  match dict_get scene "collectibles" with
  | some v => truthy v
  | none => false

/-- All required paths contributed by one scene. -/
def scenePaths (scene : JVal) : List String :=
  playerPaths scene ++ ((sceneEnemies scene).getD []).flatMap enemyPaths
    ++ (if collectiblesTruthy scene then ["Assets/Scripts/Collectible.cs"] else [])

/-- All action names contributed by one scene. -/
def sceneClicks (scene : JVal) : List String :=
  ((sceneUIs scene).getD []).flatMap uiClicks

/-- Repeated set insertion. -/
def insertAll (l : List String) (xs : List String) : List String :=
  xs.foldl insertIfAbsent l

/-- Whether a value is a Python dictionary. -/
def isObj : JVal → Bool
  | .obj _ => true
  | _ => false

/-- A scene on which the resolver's per-scene body cannot raise: the scene
is a dictionary, its player field is a dictionary once defaulted, and its
enemies and UI containers iterate to lists of dictionaries. -/
def sceneWF (scene : JVal) : Bool :=
  isObj scene
  && isObj (pyOr ((dict_get scene "player").getD .null) (.obj []))
  && (match sceneEnemies scene with
      | some es => es.all isObj
      | none => false)
  && (match sceneUIs scene with
      | some uis => uis.all isObj
      | none => false)

/-- A document on which `_determine_required_scripts` cannot raise. -/
def specWF (spec : JVal) : Bool :=
  match docScenes spec with
  | some scenes => scenes.all sceneWF
  | none => false

/-! Lemmas about the set model. -/

theorem mem_insertIfAbsent {l : List String} {x s : String} :
    x ∈ insertIfAbsent l s ↔ x ∈ l ∨ x = s := by
  unfold insertIfAbsent
  by_cases h : s ∈ l
  · simp only [if_pos h]
    constructor
    · exact Or.inl
    · rintro (hx | rfl)
      · exact hx
      · exact h
  · simp [if_neg h]

theorem nodup_insertIfAbsent {l : List String} {s : String} (h : l.Nodup) :
    (insertIfAbsent l s).Nodup := by
  unfold insertIfAbsent
  by_cases hs : s ∈ l
  · simpa [if_pos hs]
  · simp [if_neg hs, List.nodup_append, h, hs]

theorem mem_insertAll {l xs : List String} {x : String} :
    x ∈ insertAll l xs ↔ x ∈ l ∨ x ∈ xs := by
  induction xs generalizing l with
  | nil => simp [insertAll]
  | cons a as ih =>
    show x ∈ insertAll (insertIfAbsent l a) as ↔ _
    rw [ih, mem_insertIfAbsent]
    simp [or_assoc]

theorem nodup_insertAll {l xs : List String} (h : l.Nodup) :
    (insertAll l xs).Nodup := by
  induction xs generalizing l with
  | nil => simpa [insertAll]
  | cons a as ih => exact ih (nodup_insertIfAbsent h)

theorem insertAll_append (l a b : List String) :
    insertAll l (a ++ b) = insertAll (insertAll l a) b := by
  simp [insertAll, List.foldl_append]

/-! Characterization of the resolver's loops via the per-item contribution
functions. -/

theorem enemyStep_eq {required required' : List String} {enemy : JVal}
    (h : enemyStep required enemy = some required') :
    required' = insertAll required (enemyPaths enemy) := by
  unfold enemyStep at h
  unfold enemyPaths
  cases hg : dict_get enemy "controller" with
  | none => rw [hg] at h; exact absurd h (by simp)
  | some c =>
    rw [hg] at h
    simp only [Option.some_bind] at h
    cases c <;> simp_all [insertAll]
    rename_i s
    by_cases hcs : pyEndsWith s ".cs" = true <;> simp_all [insertAll, insertIfAbsent]

theorem optFoldl_enemyStep {enemies : List JVal} {required required' : List String}
    (h : optFoldl enemyStep enemies required = some required') :
    required' = insertAll required (enemies.flatMap enemyPaths) := by
  induction enemies generalizing required with
  | nil => simp [optFoldl] at h; simp [insertAll, h]
  | cons e es ih =>
    simp only [optFoldl, Option.bind_eq_some] at h
    obtain ⟨r, hr, hrest⟩ := h
    rw [ih hrest, enemyStep_eq hr, List.flatMap_cons, insertAll_append]

theorem uiStep_eq {onclick onclick' : List String} {ui : JVal}
    (h : uiStep onclick ui = some onclick') :
    onclick' = insertAll onclick (uiClicks ui) := by
  unfold uiStep at h
  unfold uiClicks
  cases hg : dict_get ui "onClick" with
  | none => rw [hg] at h; exact absurd h (by simp)
  | some c =>
    rw [hg] at h
    simp only [Option.some_bind] at h
    cases c <;> simp_all [insertAll]
    rename_i s
    by_cases hs : pyStrip s = "" <;> simp_all [insertAll, insertIfAbsent]

theorem optFoldl_uiStep {uis : List JVal} {onclick onclick' : List String}
    (h : optFoldl uiStep uis onclick = some onclick') :
    onclick' = insertAll onclick (uis.flatMap uiClicks) := by
  induction uis generalizing onclick with
  | nil => simp [optFoldl] at h; simp [insertAll, h]
  | cons u us ih =>
    simp only [optFoldl, Option.bind_eq_some] at h
    obtain ⟨r, hr, hrest⟩ := h
    rw [ih hrest, uiStep_eq hr, List.flatMap_cons, insertAll_append]

theorem insertAll_nil (l : List String) : insertAll l [] = l := rfl

theorem sceneStep_eq {st st' : List String × List String} {scene : JVal}
    (h : sceneStep st scene = some st') :
    st'.1 = insertAll st.1 (scenePaths scene) ∧ st'.2 = insertAll st.2 (sceneClicks scene) := by
  simp only [sceneStep, Option.bind_eq_some, Option.some.injEq] at h
  obtain ⟨playerRaw, h1, controller, h2, enemiesRaw, h3, enemies, h4, req2, h5, coll, h6,
    uiRaw, h7, uiList, h8, onclick, h9, h10⟩ := h
  subst h10
  have hse : sceneEnemies scene = some enemies := by
    unfold sceneEnemies; rw [h3]; simp only [Option.some_bind]; exact h4
  have hsu : sceneUIs scene = some uiList := by
    unfold sceneUIs; rw [h7]; simp only [Option.some_bind]; exact h8
  have hct : collectiblesTruthy scene = truthy coll := by
    unfold collectiblesTruthy; rw [h6]
  have hreq2 : req2 = insertAll (insertAll st.1 (playerPaths scene)) (enemies.flatMap enemyPaths) := by
    rw [optFoldl_enemyStep h5]
    congr 1
    unfold playerPaths
    rw [h1]
    simp only [Option.some_bind]
    rw [h2]
    cases controller <;> simp [insertAll]
    rename_i s
    by_cases hcs : pyEndsWith s ".cs" = true <;> simp [hcs, insertAll, insertIfAbsent]
  constructor
  · show (if truthy coll then insertIfAbsent req2 "Assets/Scripts/Collectible.cs" else req2) = _
    unfold scenePaths
    rw [hse, hct]
    simp only [Option.getD_some]
    rw [insertAll_append, insertAll_append, ← hreq2]
    by_cases htc : truthy coll = true
    · simp [htc, insertAll, insertIfAbsent]
    · simp only [Bool.not_eq_true] at htc
      simp [htc, insertAll]
  · show onclick = _
    rw [optFoldl_uiStep h9]
    unfold sceneClicks
    rw [hsu]
    simp only [Option.getD_some]

theorem optFoldl_sceneStep {scenes : List JVal} {st st' : List String × List String}
    (h : optFoldl sceneStep scenes st = some st') :
    st'.1 = insertAll st.1 (scenes.flatMap scenePaths)
      ∧ st'.2 = insertAll st.2 (scenes.flatMap sceneClicks) := by
  induction scenes generalizing st with
  | nil =>
    simp [optFoldl] at h
    simp [insertAll, ← h]
  | cons sc scs ih =>
    simp only [optFoldl, Option.bind_eq_some] at h
    obtain ⟨mid, hmid, hrest⟩ := h
    obtain ⟨ihr, ihc⟩ := ih hrest
    obtain ⟨hr, hc⟩ := sceneStep_eq hmid
    constructor
    · rw [ihr, hr, List.flatMap_cons, insertAll_append]
    · rw [ihc, hc, List.flatMap_cons, insertAll_append]

/-- Master characterization of `_determine_required_scripts`: whenever the
Python code returns `(required_paths, onclick_names)`, membership in each
set is exactly the union of the per-scene contributions, plus the
`GameUIScripts.cs` rule, and both sets are duplicate-free. -/
theorem resolver_spec (spec : JVal) (req clicks : List String) (scenes : List JVal)
    (h : determine_required_scripts spec = some (req, clicks))
    (hs : docScenes spec = some scenes) :
    (∀ x, x ∈ req ↔ (∃ scene ∈ scenes, x ∈ scenePaths scene)
        ∨ (x = "Assets/Scripts/GameUIScripts.cs" ∧ clicks ≠ []))
    ∧ (∀ n, n ∈ clicks ↔ ∃ scene ∈ scenes, n ∈ sceneClicks scene)
    ∧ req.Nodup ∧ clicks.Nodup := by
  simp only [determine_required_scripts, Option.bind_eq_some, Option.some.injEq] at h
  obtain ⟨scenesRaw, h1, scenes', h2, st, h3, h4⟩ := h
  have hsc : scenes' = scenes := by
    simp only [docScenes, Option.bind_eq_some] at hs
    obtain ⟨raw', hr1, hr2⟩ := hs
    rw [h1] at hr1
    cases hr1
    rw [h2] at hr2
    cases hr2
    rfl
  subst hsc
  obtain ⟨hst1, hst2⟩ := optFoldl_sceneStep h3
  injection h4 with hreq hclicks
  have hmemc : ∀ n, n ∈ clicks ↔ ∃ scene ∈ scenes', n ∈ sceneClicks scene := by
    intro n
    rw [← hclicks, hst2, mem_insertAll]
    simp [List.mem_flatMap]
  have hnodc : clicks.Nodup := by
    rw [← hclicks, hst2]
    exact nodup_insertAll List.nodup_nil
  refine ⟨?_, hmemc, ?_, hnodc⟩
  · intro x
    by_cases hemp : st.2.isEmpty = true
    · rw [← hreq, if_pos hemp, hst1, mem_insertAll]
      have : clicks = [] := by rw [← hclicks]; exact List.isEmpty_iff.mp hemp
      simp [this, List.mem_flatMap]
    · rw [← hreq, if_neg hemp, mem_insertIfAbsent, hst1, mem_insertAll]
      have : clicks ≠ [] := by
        rw [← hclicks]
        intro hcon
        rw [hcon] at hemp
        exact hemp rfl
      simp [this, List.mem_flatMap, or_assoc]
  · rw [← hreq]
    by_cases hemp : st.2.isEmpty = true
    · rw [if_pos hemp, hst1]
      exact nodup_insertAll List.nodup_nil
    · rw [if_neg hemp]
      exact nodup_insertIfAbsent (hst1 ▸ nodup_insertAll List.nodup_nil)

theorem dict_get_isSome {v : JVal} (k : String) (h : isObj v = true) :
    ∃ w, dict_get v k = some w := by
  cases v <;> (try exact ⟨_, rfl⟩) <;> simp [isObj] at h

theorem enemyStep_isSome (required : List String) (enemy : JVal) (h : isObj enemy = true) :
    (enemyStep required enemy).isSome = true := by
  obtain ⟨w, hw⟩ := dict_get_isSome "controller" h
  simp only [enemyStep, hw, Option.some_bind]
  split <;> simp [apply_ite]

theorem optFoldl_enemyStep_isSome (enemies : List JVal) (required : List String)
    (h : enemies.all isObj = true) : (optFoldl enemyStep enemies required).isSome = true := by
  induction enemies generalizing required with
  | nil => simp [optFoldl]
  | cons e es ih =>
    simp only [List.all_cons, Bool.and_eq_true] at h
    obtain ⟨he, hes⟩ := h
    obtain ⟨r, hr⟩ := Option.isSome_iff_exists.mp (enemyStep_isSome required e he)
    simp only [optFoldl, hr, Option.some_bind]
    exact ih r hes

theorem uiStep_isSome (onclick : List String) (ui : JVal) (h : isObj ui = true) :
    (uiStep onclick ui).isSome = true := by
  obtain ⟨w, hw⟩ := dict_get_isSome "onClick" h
  simp only [uiStep, hw, Option.some_bind]
  split <;> simp [apply_ite]

theorem optFoldl_uiStep_isSome (uis : List JVal) (onclick : List String)
    (h : uis.all isObj = true) : (optFoldl uiStep uis onclick).isSome = true := by
  induction uis generalizing onclick with
  | nil => simp [optFoldl]
  | cons u us ih =>
    simp only [List.all_cons, Bool.and_eq_true] at h
    obtain ⟨hu, hus⟩ := h
    obtain ⟨r, hr⟩ := Option.isSome_iff_exists.mp (uiStep_isSome onclick u hu)
    simp only [optFoldl, hr, Option.some_bind]
    exact ih r hus

theorem optBind_isSome {α β : Type} {o : Option α} {f : α → Option β}
    (h : o.isSome = true) (hf : ∀ a, (f a).isSome = true) : (o.bind f).isSome = true := by
  obtain ⟨a, ha⟩ := Option.isSome_iff_exists.mp h
  rw [ha, Option.some_bind]
  exact hf a

theorem sceneStep_isSome (scene : JVal) (hwf : sceneWF scene = true)
    (st : List String × List String) : (sceneStep st scene).isSome = true := by
  simp only [sceneWF, Bool.and_eq_true] at hwf
  obtain ⟨⟨⟨hobj, hpl⟩, hen⟩, hui⟩ := hwf
  obtain ⟨playerRaw, hp⟩ := dict_get_isSome "player" hobj
  rw [hp] at hpl
  simp only [Option.getD_some] at hpl
  obtain ⟨controller, hc⟩ := dict_get_isSome "controller" hpl
  obtain ⟨es, hes, hesobj⟩ : ∃ es, sceneEnemies scene = some es ∧ es.all isObj = true := by
    revert hen
    cases hse : sceneEnemies scene <;> intro hen
    · exact absurd hen (by simp)
    · exact ⟨_, rfl, hen⟩
  obtain ⟨uis, huis, huisobj⟩ : ∃ uis, sceneUIs scene = some uis ∧ uis.all isObj = true := by
    revert hui
    cases hsu : sceneUIs scene <;> intro hui
    · exact absurd hui (by simp)
    · exact ⟨_, rfl, hui⟩
  simp only [sceneEnemies, Option.bind_eq_some] at hes
  obtain ⟨enRaw, hen1, hen2⟩ := hes
  simp only [sceneUIs, Option.bind_eq_some] at huis
  obtain ⟨uiRaw, hui1, hui2⟩ := huis
  obtain ⟨coll, hcoll⟩ := dict_get_isSome "collectibles" hobj
  obtain ⟨r2, hr2⟩ := Option.isSome_iff_exists.mp (optFoldl_uiStep_isSome uis st.2 huisobj)
  simp only [sceneStep, hp, hc, hen1, hen2, hui1, hui2, hcoll, hr2, Option.some_bind]
  exact optBind_isSome (optFoldl_enemyStep_isSome es _ hesobj) (fun a => rfl)

theorem optFoldl_sceneStep_isSome (scenes : List JVal) (st : List String × List String)
    (h : scenes.all sceneWF = true) : (optFoldl sceneStep scenes st).isSome = true := by
  induction scenes generalizing st with
  | nil => simp [optFoldl]
  | cons sc scs ih =>
    simp only [List.all_cons, Bool.and_eq_true] at h
    obtain ⟨hsc, hscs⟩ := h
    obtain ⟨r, hr⟩ := Option.isSome_iff_exists.mp (sceneStep_isSome sc hsc st)
    simp only [optFoldl, hr, Option.some_bind]
    exact ih r hscs

/-- Splitting a character list on `/` (helper for `pyPathName`). -/
def splitSlash : List Char → List (List Char)
  | [] => [[]]
  | c :: cs =>
    let rest := splitSlash cs
    if c = '/' then [] :: rest
    else
      match rest with
      | [] => [[c]]
      | r :: rs => (c :: r) :: rs

/-- Python `pathlib.Path(p).name` for the POSIX-style relative paths this
program builds (last non-empty path component). -/
def pyPathName (p : String) : String :=
  String.mk (((splitSlash p.toList).filter (fun c => c ≠ [])).getLastD [])

/-- Lexicographic-by-code-point comparison on character lists — the order
Python uses to compare strings. -/
def charListLe : List Char → List Char → Bool
  | [], _ => true
  | _ :: _, [] => false
  | a :: as, b :: bs => if a < b then true else if b < a then false else charListLe as bs

/-- Python string `<=`. -/
def strLe (a b : String) : Bool := charListLe a.toList b.toList

/-- Sorted insertion (kept ascending, stable). -/
def insertSorted (x : String) : List String → List String
  | [] => [x]
  | y :: ys => if strLe x y then x :: y :: ys else y :: insertSorted x ys

/-- Python `sorted` on a list of strings: ascending, lexicographic by code
point.  The lists sorted here are duplicate-free (they model sets), so any
correct ascending sort produces exactly Python's output. -/
def pySorted : List String → List String
  | [] => []
  | x :: xs => insertSorted x (pySorted xs)

/-- Python `pathlib.Path(name).suffix` for a plain file name: the text
from the last dot on, provided that dot is neither leading nor trailing. -/
def pySuffix (name : String) : String :=
  let cs := name.toList
  match cs.reverse.findIdx? (fun c => c = '.') with
  | none => ""
  | some j =>
    let i := cs.length - 1 - j
    if 0 < i ∧ i < cs.length - 1 then String.mk (cs.drop i) else ""

/-- The `_PLAYER_CONTROLLER_CS` template (src/cli.py lines 29–81). -/
def PLAYER_CONTROLLER_CS : String :=
  "\nusing UnityEngine;\n\npublic class PlayerController : MonoBehaviour\n\x7b\n    public float moveSpeed = 5f;\n    public float jumpForce = 7f;\n    private Rigidbody2D _rb;\n    private BoxCollider2D _collider;\n    private bool _isGrounded;\n\n    private void Awake()\n    \x7b\n        _rb = gameObject.GetComponent<Rigidbody2D>();\n        if (_rb == null) _rb = gameObject.AddComponent<Rigidbody2D>();\n        _rb.gravityScale = 3f;\n        _rb.constraints = RigidbodyConstraints2D.FreezeRotation;\n\n        _collider = gameObject.GetComponent<BoxCollider2D>();\n        if (_collider == null) _collider = gameObject.AddComponent<BoxCollider2D>();\n    \x7d\n\n    private void Update()\n    \x7b\n        float x = Input.GetAxisRaw(\"Horizontal\");\n        Vector2 v = _rb.velocity;\n        v.x = x * moveSpeed;\n        _rb.velocity = v;\n\n        if (Input.GetButtonDown(\"Jump\") && _isGrounded)\n        \x7b\n            _rb.AddForce(Vector2.up * jumpForce, ForceMode2D.Impulse);\n        \x7d\n    \x7d\n\n    private void OnCollisionEnter2D(Collision2D other)\n    \x7b\n        foreach (var contact in other.contacts)\n        \x7b\n            if (Vector2.Dot(contact.normal, Vector2.up) > 0.5f)\n            \x7b\n                _isGrounded = true;\n                break;\n            \x7d\n        \x7d\n    \x7d\n\n    private void OnCollisionExit2D(Collision2D other)\n    \x7b\n        _isGrounded = false;\n    \x7d\n\x7d\n"

/-- The `_ENEMY_AI_CS` template (src/cli.py lines 83–110). -/
def ENEMY_AI_CS : String :=
  "\nusing UnityEngine;\n\npublic class EnemyAI : MonoBehaviour\n\x7b\n    public float patrolAmplitude = 2f;\n    public float patrolSpeed = 1f;\n    private Vector3 _origin;\n\n    private void Start()\n    \x7b\n        _origin = transform.position;\n        var rb = gameObject.GetComponent<Rigidbody2D>();\n        if (rb == null) rb = gameObject.AddComponent<Rigidbody2D>();\n        rb.gravityScale = 0.5f;\n        rb.constraints = RigidbodyConstraints2D.FreezeRotation;\n\n        var col = gameObject.GetComponent<Collider2D>();\n        if (col == null) col = gameObject.AddComponent<BoxCollider2D>();\n    \x7d\n\n    private void Update()\n    \x7b\n        float dx = Mathf.Sin(Time.time * patrolSpeed) * patrolAmplitude;\n        transform.position = new Vector3(_origin.x + dx, transform.position.y, transform.position.z);\n    \x7d\n\x7d\n"

/-- The `_SLIME_AI_CS` template (src/cli.py lines 112–119). -/
def SLIME_AI_CS : String :=
  "\nusing UnityEngine;\n\npublic class SlimeAI : EnemyAI\n\x7b\n    // Can override behavior in the future\n\x7d\n"

/-- The `_BAT_AI_CS` template (src/cli.py lines 121–136). -/
def BAT_AI_CS : String :=
  "\nusing UnityEngine;\n\npublic class BatAI : EnemyAI\n\x7b\n    private void Update()\n    \x7b\n        // Circle the spawn point\n        float radius = 1.5f;\n        float speed = 1.2f;\n        float x = Mathf.Cos(Time.time * speed) * radius;\n        float y = Mathf.Sin(Time.time * speed) * radius;\n        transform.localPosition = new Vector3(x, y, 0f);\n    \x7d\n\x7d\n"

/-- The `_COLLECTIBLE_CS` template (src/cli.py lines 138–160). -/
def COLLECTIBLE_CS : String :=
  "\nusing UnityEngine;\n\npublic class Collectible : MonoBehaviour\n\x7b\n    public int value = 1;\n\n    private void Reset()\n    \x7b\n        var col = GetComponent<Collider2D>();\n        if (col == null) col = gameObject.AddComponent<CircleCollider2D>();\n        col.isTrigger = true;\n    \x7d\n\n    private void OnTriggerEnter2D(Collider2D other)\n    \x7b\n        if (other.gameObject.GetComponent<PlayerController>() != null)\n        \x7b\n            Destroy(gameObject);\n        \x7d\n    \x7d\n\x7d\n"

/-- The `_GAME_UI_SCRIPTS_CS` template (src/cli.py lines 162–174). -/
def GAME_UI_SCRIPTS_CS : String :=
  "\nusing UnityEngine;\nusing UnityEngine.SceneManagement;\n\npublic static class GameUIActions\n\x7b\n    public static void RestartGame()\n    \x7b\n        var scene = SceneManager.GetActiveScene();\n        SceneManager.LoadScene(scene.name);\n    \x7d\n\x7d\n"

/-- `GeminiClient._build_ui_actions_script` (src/cli.py lines 415–446). -/
def build_ui_actions_script (action_names : List String) : String :=
  let methods := action_names.map (fun name =>
    if name = "RestartGame" then
      "public static void RestartGame()\n    \x7b\n        var scene = UnityEngine.SceneManagement.SceneManager.GetActiveScene();\n        UnityEngine.SceneManagement.SceneManager.LoadScene(scene.name);\n    \x7d"
    else
      "public static void " ++ name ++ "()\n    \x7b\n        UnityEngine.Debug.Log(\"UI Action invoked: " ++ name ++ "\");\n    \x7d")
  let body := String.intercalate "\n\n" methods
  "using UnityEngine;\nusing UnityEngine.SceneManagement;\n\npublic static class GameUIActions\n\x7b\n" ++ body ++ "\n\x7d\n"

/-- `GeminiClient._default_stub_for` (src/cli.py lines 448–457). -/
def default_stub_for (file_name : String) : String :=
  let class_name := pyStrip (file_name.replace ".cs" "")
  "using UnityEngine;\n\npublic class " ++ class_name ++ " : MonoBehaviour\n\x7b\n    private void Awake() \x7b \x7d\n    private void Update() \x7b \x7d\n\x7d\n"

/-- `GeminiClient._template_for_known` (src/cli.py lines 459–473). -/
def template_for_known (file_name : String) : Option String :=
  if file_name = "PlayerController.cs" then some PLAYER_CONTROLLER_CS
  else if file_name = "EnemyAI.cs" then some ENEMY_AI_CS
  else if file_name = "SlimeAI.cs" then some SLIME_AI_CS
  else if file_name = "BatAI.cs" then some BAT_AI_CS
  else if file_name = "Collectible.cs" then some COLLECTIBLE_CS
  else if file_name = "GameUIScripts.cs" then some GAME_UI_SCRIPTS_CS
  else none

/-- The "ensure base EnemyAI" step shared verbatim by
`GeminiClient.generate_scripts` (src/cli.py lines 377–380) and
`GeminiClient._fallback_scripts` (lines 523–526): if any generated file is
named `SlimeAI.cs` or `BatAI.cs` and `Assets/Scripts/EnemyAI.cs` is not
among the keys, that entry is added. -/
def ensure_enemy_ai (results : List (String × String)) : List (String × String) :=
  if (results.any (fun p => pyPathName p.1 = "SlimeAI.cs" || pyPathName p.1 = "BatAI.cs"))
      && !(results.any (fun p => p.1 = "Assets/Scripts/EnemyAI.cs")) then
    results ++ [("Assets/Scripts/EnemyAI.cs", ENEMY_AI_CS)]
  else results

/-- `GeminiClient._fallback_scripts` (src/cli.py lines 507–529): the
insertion-ordered dictionary `{relative_path: file_content}` built without
a Gemini client, or `none` when `_determine_required_scripts` raises. -/
def fallback_scripts (spec : JVal) : Option (List (String × String)) :=
  (determine_required_scripts spec).bind fun rc =>
  let scripts := (pySorted rc.1).foldl (fun acc rel_path =>
    let file_name := pyPathName rel_path
    if file_name = "GameUIScripts.cs" then
      acc ++ [(rel_path, build_ui_actions_script (pySorted rc.2))]
    else
      match template_for_known file_name with
      | none => acc ++ [(rel_path, default_stub_for file_name)]
      | some tmpl => acc ++ [(rel_path, tmpl)]) []
  some (ensure_enemy_ai scripts)

/-- `GeminiClient.generate_scripts` (src/cli.py lines 334–382) with a
Gemini client present.  The opaque call
`self._client.generate_content(prompt).text` is abstracted as the oracle
`gen`, keyed by the file name and the spec (the prompt is a deterministic
function of exactly those two); `gen` returning `none` models an exception
or a `None` text, and a whitespace-only text likewise reaches the
template/stub branch through the `raise ValueError` at line 367. -/
def generate_scripts (gen : String → JVal → Option String) (spec : JVal) :
    Option (List (String × String)) :=
  (determine_required_scripts spec).bind fun rc =>
  let results := (pySorted rc.1).foldl (fun acc rel_path =>
    let file_name := pyPathName rel_path
    if file_name = "GameUIScripts.cs" then
      acc ++ [(rel_path, build_ui_actions_script (pySorted rc.2))]
    else
      match (gen file_name spec).bind (fun t => if pyStrip t = "" then none else some (pyStrip t)) with
      | some code => acc ++ [(rel_path, code)]
      | none =>
        match template_for_known file_name with
        | none => acc ++ [(rel_path, default_stub_for file_name)]
        | some tmpl => acc ++ [(rel_path, tmpl)]) []
  some (ensure_enemy_ai results)

/-- `GeminiClient._fallback_spec` (src/cli.py lines 476–505).  The
argument is unused by the source as well. -/
def fallback_spec (user_prompt : String) : JVal :=
  .obj [
    ("game", .obj [("title", .str "Forest Platformer")]),
    ("scenes", .arr [
      .obj [
        ("name", .str "Level1"),
        ("background", .str "forest_bg.png"),
        ("tilemap", .str "grass_tileset.png"),
        ("player", .obj [
          ("sprite", .str "hero_idle.png"),
          ("controller", .str "PlayerController.cs"),
          ("spawn", .arr [.num 0, .num 0])]),
        ("enemies", .arr [
          .obj [("sprite", .str "slime.png"), ("controller", .str "SlimeAI.cs"),
                ("spawn", .arr [.num 5, .num 0])],
          .obj [("sprite", .str "bat.png"), ("controller", .str "BatAI.cs"),
                ("spawn", .arr [.num 8, .num 3])]]),
        ("collectibles", .arr [
          .obj [("sprite", .str "coin.png"), ("spawn", .arr [.num 2, .num 1])],
          .obj [("sprite", .str "coin.png"), ("spawn", .arr [.num 7, .num 2])],
          .obj [("sprite", .str "heart.png"), ("spawn", .arr [.num 10, .num 4])]]),
        ("ui", .arr [
          .obj [("type", .str "label"), ("text", .str "Score: 0"), ("anchor", .str "top_left")],
          .obj [("type", .str "button"), ("text", .str "Restart"), ("anchor", .str "bottom_right"),
                ("onClick", .str "RestartGame")]])]])]

/-- The text-handling branch of `GeminiClient.generate_spec`
(src/cli.py lines 313–328), reached when the structured `parsed` response
is unavailable: the response text is stripped; an empty text, or a text
`json.loads` rejects, yields the local fallback spec; a decodable text
yields the decoded document.  `json.loads` is abstracted as `json_loads`
(`none` models `json.JSONDecodeError`). -/
def generate_spec_from_text (json_loads : String → Option JVal) (user_prompt raw : String) : JVal :=
  let text := pyStrip raw
  if text = "" then fallback_spec user_prompt
  else
    match json_loads text with
    | some data => data
    | none => fallback_spec user_prompt

/-- A directory entry seen by `copy_assets` when scanning the asset
library with `iterdir()`. -/
structure DirEntry where
  name : String
  isFile : Bool

/-- Python `s.lower()` (ASCII case folding suffices for the extensions
compared here). -/
def pyToLower (s : String) : String := String.mk (s.toList.map Char.toLower)

/-- `copy_assets` (src/cli.py lines 575–588): the names of the library
files copied into `Assets/3P/`.  `library_exists` models
`library_dir.exists()`. -/
def copy_assets (library_exists : Bool) (library : List DirEntry) : List String :=
  if !library_exists then []
  else ((library.filter (fun item =>
    item.isFile && (pyToLower (pySuffix item.name) == ".png"
      || pyToLower (pySuffix item.name) == ".meta"))).map (fun item => item.name))

/-- Outcome of the best-effort schema validation block of `cmd_new`
(src/cli.py lines 618–628): the schema file may be missing (no validation
attempted), validation may pass, or `jsonschema.validate` may raise — in
which case the exception is caught and printed as a warning only. -/
inductive SchemaCheck where
  | missing
  | ok
  | failed (msg : String)

/-- What `cmd_new` (src/cli.py lines 591–650) does with the spec after the
schema-validation block, in fallback mode (no Gemini client): the spec is
written into the project (`write_spec`, line 631) and scripts are derived
from it (`generate_scripts`, line 635, which without a client returns
`_fallback_scripts`); `scripts = none` models the run aborting with an
exception after the spec was already written. -/
structure CmdNewResult where
  writtenSpec : JVal
  scripts : Option (List (String × String))

/-- The control flow of `cmd_new` after `generate_spec` returned, in
fallback mode: every `SchemaCheck` outcome leads to the same writes,
because the `except` clause at line 627 only prints a warning. -/
def cmd_new_after_spec (check : SchemaCheck) (spec : JVal) : CmdNewResult :=
  match check with
  | .missing => { writtenSpec := spec, scripts := fallback_scripts spec }
  | .ok => { writtenSpec := spec, scripts := fallback_scripts spec }
  | .failed _ => { writtenSpec := spec, scripts := fallback_scripts spec }

/-! ## Claim C1 -/

/-- Document witnessing that claim C1 as stated is false: it has one scene
with player controller `"Hero.cs"`, an enemy with controller
`"Slime.cs"`, a non-empty collectibles list, and a UI element with
`onClick = "RestartGame"` — but a second UI element with
`onClick = "Quit"`. -/
def c1CounterDoc : JVal :=
  .obj [("scenes", .arr [
    .obj [
      ("player", .obj [("controller", .str "Hero.cs")]),
      ("enemies", .arr [.obj [("controller", .str "Slime.cs")]]),
      ("collectibles", .arr [.obj []]),
      ("ui", .arr [.obj [("onClick", .str "RestartGame")], .obj [("onClick", .str "Quit")]])]])]

/-- C1 counterexample: `c1CounterDoc` satisfies every hypothesis of claim
C1 (one scene, player controller `"Hero.cs"`, an enemy with controller
`"Slime.cs"`, non-empty collectibles, a UI element with onClick
`"RestartGame"`), yet the returned action-name set is
`{"RestartGame", "Quit"}`, not `{"RestartGame"}` as the claim demands. -/
theorem c1_counterexample :
    determine_required_scripts c1CounterDoc =
      some (["Assets/Scripts/Hero.cs", "Assets/Scripts/Slime.cs",
             "Assets/Scripts/Collectible.cs", "Assets/Scripts/GameUIScripts.cs"],
            ["RestartGame", "Quit"]) ∧ "Quit" ≠ "RestartGame" :=
  ⟨rfl, by decide⟩

/-- C1 (amended): for every document on which the resolver returns, and
every scene of it whose player controller is `"Hero.cs"`, with an enemy
whose controller is `"Slime.cs"`, a non-empty collectibles list, and a UI
element with onClick `"RestartGame"`, the required-path set contains the
Hero, Slime, Collectible and UI-actions entries, and the action-name set
contains `"RestartGame"` (equality with `{"RestartGame"}` holds only when
no other usable onClick value occurs). -/
theorem c1_required_artifacts (spec scene enemy ui : JVal) (req clicks : List String)
    (scenes es uis : List JVal)
    (h : determine_required_scripts spec = some (req, clicks))
    (hs : docScenes spec = some scenes)
    (hmem : scene ∈ scenes)
    (hp : (dict_get scene "player").bind (fun p => dict_get (pyOr p (.obj [])) "controller")
        = some (.str "Hero.cs"))
    (he : sceneEnemies scene = some es)
    (hen : enemy ∈ es)
    (hec : dict_get enemy "controller" = some (.str "Slime.cs"))
    (hc : ∃ c cs, dict_get scene "collectibles" = some (.arr (c :: cs)))
    (hu : sceneUIs scene = some uis)
    (hui : ui ∈ uis)
    (huc : dict_get ui "onClick" = some (.str "RestartGame")) :
    "Assets/Scripts/Hero.cs" ∈ req ∧ "Assets/Scripts/Slime.cs" ∈ req
      ∧ "Assets/Scripts/Collectible.cs" ∈ req ∧ "Assets/Scripts/GameUIScripts.cs" ∈ req
      ∧ "RestartGame" ∈ clicks := by
  obtain ⟨hreq, hclk, _, _⟩ := resolver_spec spec req clicks scenes h hs
  have hhero : "Assets/Scripts/Hero.cs" ∈ scenePaths scene := by
    have hpp : playerPaths scene = ["Assets/Scripts/Hero.cs"] := by
      unfold playerPaths
      rw [hp]
      decide
    simp [scenePaths, hpp]
  have hslime : "Assets/Scripts/Slime.cs" ∈ scenePaths scene := by
    have hfm : "Assets/Scripts/Slime.cs" ∈ ((sceneEnemies scene).getD []).flatMap enemyPaths := by
      rw [he]
      simp only [Option.getD_some]
      refine List.mem_flatMap.mpr ⟨enemy, hen, ?_⟩
      unfold enemyPaths
      rw [hec]
      decide
    simp [scenePaths, hfm]
  have hcoll : "Assets/Scripts/Collectible.cs" ∈ scenePaths scene := by
    obtain ⟨c, cs, hcc⟩ := hc
    have hct : collectiblesTruthy scene = true := by
      unfold collectiblesTruthy
      rw [hcc]
      rfl
    simp [scenePaths, hct]
  have hrg : "RestartGame" ∈ clicks := by
    refine (hclk _).mpr ⟨scene, hmem, ?_⟩
    unfold sceneClicks
    rw [hu]
    simp only [Option.getD_some]
    refine List.mem_flatMap.mpr ⟨ui, hui, ?_⟩
    unfold uiClicks
    rw [huc]
    decide
  have hne : clicks ≠ [] := by
    intro h0
    rw [h0] at hrg
    exact (List.not_mem_nil _) hrg
  exact ⟨(hreq _).mpr (Or.inl ⟨scene, hmem, hhero⟩),
         (hreq _).mpr (Or.inl ⟨scene, hmem, hslime⟩),
         (hreq _).mpr (Or.inl ⟨scene, hmem, hcoll⟩),
         (hreq _).mpr (Or.inr ⟨rfl, hne⟩), hrg⟩

/-- The scene of the C1 witness document. -/
def c1Scene : JVal :=
  .obj [
    ("player", .obj [("controller", .str "Hero.cs")]),
    ("enemies", .arr [.obj [("controller", .str "Slime.cs")]]),
    ("collectibles", .arr [.obj []]),
    ("ui", .arr [.obj [("onClick", .str "RestartGame")]])]

/-- The C1 witness document (exactly the scenario of spec section 8). -/
def c1Doc : JVal := .obj [("scenes", .arr [c1Scene])]

/-- The enemy entry of the C1 witness document. -/
def c1Enemy : JVal := .obj [("controller", .str "Slime.cs")]

/-- The UI entry of the C1 witness document. -/
def c1UI : JVal := .obj [("onClick", .str "RestartGame")]

/-- C1 witness: the amended theorem applied to the concrete document of
spec section 8, every hypothesis discharged by evaluation. -/
theorem c1_witness :
    "Assets/Scripts/Hero.cs" ∈ (["Assets/Scripts/Hero.cs", "Assets/Scripts/Slime.cs",
        "Assets/Scripts/Collectible.cs", "Assets/Scripts/GameUIScripts.cs"] : List String)
    ∧ "Assets/Scripts/Slime.cs" ∈ (["Assets/Scripts/Hero.cs", "Assets/Scripts/Slime.cs",
        "Assets/Scripts/Collectible.cs", "Assets/Scripts/GameUIScripts.cs"] : List String)
    ∧ "Assets/Scripts/Collectible.cs" ∈ (["Assets/Scripts/Hero.cs", "Assets/Scripts/Slime.cs",
        "Assets/Scripts/Collectible.cs", "Assets/Scripts/GameUIScripts.cs"] : List String)
    ∧ "Assets/Scripts/GameUIScripts.cs" ∈ (["Assets/Scripts/Hero.cs", "Assets/Scripts/Slime.cs",
        "Assets/Scripts/Collectible.cs", "Assets/Scripts/GameUIScripts.cs"] : List String)
    ∧ "RestartGame" ∈ (["RestartGame"] : List String) :=
  c1_required_artifacts c1Doc c1Scene c1Enemy c1UI
    ["Assets/Scripts/Hero.cs", "Assets/Scripts/Slime.cs",
     "Assets/Scripts/Collectible.cs", "Assets/Scripts/GameUIScripts.cs"]
    ["RestartGame"] [c1Scene] [c1Enemy] [c1UI]
    rfl rfl (List.mem_singleton_self _) rfl rfl (List.mem_singleton_self _) rfl
    ⟨.obj [], [], rfl⟩ rfl (List.mem_singleton_self _) rfl

/-! ## Claim C4 -/

/-- Document witnessing that claim C4 as stated is false: one scene with
one enemy whose controller is the string `"Slime"` (no `.cs` suffix). -/
def c4Doc : JVal :=
  .obj [("scenes", .arr [.obj [("enemies", .arr [.obj [("controller", .str "Slime")]])]])]

/-- C4 counterexample: the enemy controller `"Slime"` is a string, yet the
resolver returns an empty required-path set — the code also requires the
`.cs` suffix, which the claim omits. -/
theorem c4_counterexample :
    determine_required_scripts c4Doc = some ([], [])
      ∧ "Assets/Scripts/Slime" ∉ ([] : List String) :=
  ⟨rfl, by simp⟩

/-- C4 (amended): for every scene and every enemy in it whose controller
field is a string ending in `".cs"`, the required-path set returned by the
resolver contains `"Assets/Scripts/" ++ controller`. -/
theorem c4_enemy_controller_paths (spec scene enemy : JVal) (req clicks : List String)
    (scenes es : List JVal) (s : String)
    (h : determine_required_scripts spec = some (req, clicks))
    (hs : docScenes spec = some scenes)
    (hmem : scene ∈ scenes)
    (he : sceneEnemies scene = some es)
    (hen : enemy ∈ es)
    (hec : dict_get enemy "controller" = some (.str s))
    (hcs : pyEndsWith s ".cs" = true) :
    ("Assets/Scripts/" ++ s) ∈ req := by
  obtain ⟨hreq, _, _, _⟩ := resolver_spec spec req clicks scenes h hs
  refine (hreq _).mpr (Or.inl ⟨scene, hmem, ?_⟩)
  have hfm : ("Assets/Scripts/" ++ s) ∈ ((sceneEnemies scene).getD []).flatMap enemyPaths := by
    rw [he]
    simp only [Option.getD_some]
    refine List.mem_flatMap.mpr ⟨enemy, hen, ?_⟩
    unfold enemyPaths
    rw [hec]
    simp [hcs]
  simp [scenePaths, hfm]

/-- The enemy of the C4 witness document. -/
def c4WEnemy : JVal := .obj [("controller", .str "Slime.cs")]

/-- The scene of the C4 witness document. -/
def c4WScene : JVal := .obj [("enemies", .arr [c4WEnemy])]

/-- The C4 witness document: one enemy with controller `"Slime.cs"`. -/
def c4WDoc : JVal := .obj [("scenes", .arr [c4WScene])]

/-- C4 witness: the amended theorem applied to `c4WDoc`. -/
theorem c4_witness : ("Assets/Scripts/" ++ "Slime.cs") ∈ (["Assets/Scripts/Slime.cs"] : List String) :=
  c4_enemy_controller_paths c4WDoc c4WScene c4WEnemy ["Assets/Scripts/Slime.cs"] []
    [c4WScene] [c4WEnemy] "Slime.cs"
    rfl rfl (List.mem_singleton_self _) rfl (List.mem_singleton_self _) rfl (by decide)

/-! ## Claim C5 -/

/-- Document witnessing that claim C5's "if and only if" is false: an
enemy controller named `"GameUIScripts.cs"` puts the UI-actions path into
the required set while the collected action-name set is empty. -/
def c5Doc : JVal :=
  .obj [("scenes", .arr [.obj [("enemies", .arr [.obj [("controller", .str "GameUIScripts.cs")]])]])]

/-- C5 counterexample: `"Assets/Scripts/GameUIScripts.cs"` is a member of
the returned required-path set although the collected onClick set is
empty, refuting the claimed "if and only if". -/
theorem c5_counterexample :
    determine_required_scripts c5Doc = some (["Assets/Scripts/GameUIScripts.cs"], [])
      ∧ "Assets/Scripts/GameUIScripts.cs" ∈ (["Assets/Scripts/GameUIScripts.cs"] : List String) :=
  ⟨rfl, by simp⟩

/-- C5 (amended): provided no controller field aliases the UI-actions path
(no scene contributes `"Assets/Scripts/GameUIScripts.cs"` through its
player or enemies), that path is in the required set iff the collected
action-name set is non-empty; the action-name set contains the stripped
value of every string onClick with non-whitespace content across all
scenes, and is duplicate-free. -/
theorem c5_ui_actions_rule (spec : JVal) (req clicks : List String) (scenes : List JVal)
    (h : determine_required_scripts spec = some (req, clicks))
    (hs : docScenes spec = some scenes)
    (hno : ∀ scene ∈ scenes, "Assets/Scripts/GameUIScripts.cs" ∉ scenePaths scene) :
    ("Assets/Scripts/GameUIScripts.cs" ∈ req ↔ clicks ≠ [])
    ∧ (∀ scene ∈ scenes, ∀ uis, sceneUIs scene = some uis → ∀ ui ∈ uis, ∀ s,
        dict_get ui "onClick" = some (.str s) → pyStrip s ≠ "" → pyStrip s ∈ clicks)
    ∧ clicks.Nodup := by
  obtain ⟨hreq, hclk, _, hnod⟩ := resolver_spec spec req clicks scenes h hs
  refine ⟨?_, ?_, hnod⟩
  · rw [hreq]
    constructor
    · rintro (⟨scene, hsc, hmem⟩ | ⟨_, hne⟩)
      · exact absurd hmem (hno scene hsc)
      · exact hne
    · intro hne
      exact Or.inr ⟨rfl, hne⟩
  · intro scene hsc uis huis ui hui s hoc hns
    refine (hclk _).mpr ⟨scene, hsc, ?_⟩
    unfold sceneClicks
    rw [huis]
    simp only [Option.getD_some]
    refine List.mem_flatMap.mpr ⟨ui, hui, ?_⟩
    unfold uiClicks
    rw [hoc]
    simp [hns]

/-- The scene of the C5 witness document. -/
def c5WScene : JVal := .obj [("ui", .arr [.obj [("onClick", .str "Go")]])]

/-- The C5 witness document: one UI element with onClick `"Go"` and no
controller fields at all. -/
def c5WDoc : JVal := .obj [("scenes", .arr [c5WScene])]

/-- C5 witness: the amended theorem applied to `c5WDoc`. -/
theorem c5_witness :
    ("Assets/Scripts/GameUIScripts.cs" ∈ (["Assets/Scripts/GameUIScripts.cs"] : List String)
      ↔ (["Go"] : List String) ≠ [])
    ∧ (∀ scene ∈ [c5WScene], ∀ uis, sceneUIs scene = some uis → ∀ ui ∈ uis, ∀ s,
        dict_get ui "onClick" = some (.str s) → pyStrip s ≠ "" → pyStrip s ∈ (["Go"] : List String))
    ∧ (["Go"] : List String).Nodup :=
  c5_ui_actions_rule c5WDoc ["Assets/Scripts/GameUIScripts.cs"] ["Go"] [c5WScene]
    rfl rfl (by decide)

/-! ## Claim C6 -/

/-- The scene of the C6 counterexample document: no collectibles anywhere,
but an enemy controller named `"Collectible.cs"`. -/
def c6Scene : JVal := .obj [("enemies", .arr [.obj [("controller", .str "Collectible.cs")]])]

/-- Document witnessing that claim C6's second half is false. -/
def c6Doc : JVal := .obj [("scenes", .arr [c6Scene])]

/-- C6 counterexample: every scene's collectibles field is absent, yet
`"Assets/Scripts/Collectible.cs"` is in the required-path set, because an
enemy controller field aliases that file name. -/
theorem c6_counterexample :
    determine_required_scripts c6Doc = some (["Assets/Scripts/Collectible.cs"], [])
      ∧ docScenes c6Doc = some [c6Scene]
      ∧ dict_get c6Scene "collectibles" = some JVal.null :=
  ⟨rfl, rfl, rfl⟩

/-- C6 (amended): whenever any scene's collectibles list is non-empty the
collectible path is in the required set, regardless of the entries'
contents; and provided no controller field aliases
`"Assets/Scripts/Collectible.cs"`, the path is absent whenever every
scene's collectibles field is absent (`null`) or the empty list. -/
theorem c6_collectible_rule (spec : JVal) (req clicks : List String) (scenes : List JVal)
    (h : determine_required_scripts spec = some (req, clicks))
    (hs : docScenes spec = some scenes) :
    ((∃ scene ∈ scenes, ∃ c cs, dict_get scene "collectibles" = some (.arr (c :: cs))) →
      "Assets/Scripts/Collectible.cs" ∈ req)
    ∧ ((∀ scene ∈ scenes, "Assets/Scripts/Collectible.cs" ∉ playerPaths scene
          ∧ "Assets/Scripts/Collectible.cs" ∉ ((sceneEnemies scene).getD []).flatMap enemyPaths) →
        (∀ scene ∈ scenes, dict_get scene "collectibles" = some JVal.null
          ∨ dict_get scene "collectibles" = some (.arr [])) →
        "Assets/Scripts/Collectible.cs" ∉ req) := by
  obtain ⟨hreq, _, _, _⟩ := resolver_spec spec req clicks scenes h hs
  constructor
  · rintro ⟨scene, hsc, c, cs, hcc⟩
    refine (hreq _).mpr (Or.inl ⟨scene, hsc, ?_⟩)
    have hct : collectiblesTruthy scene = true := by
      unfold collectiblesTruthy
      rw [hcc]
      rfl
    simp [scenePaths, hct]
  · intro hno hempty hmem
    rcases (hreq _).mp hmem with ⟨scene, hsc, hpaths⟩ | ⟨heq, _⟩
    · have hct : collectiblesTruthy scene = false := by
        rcases hempty scene hsc with hc0 | hc0 <;> (unfold collectiblesTruthy; rw [hc0]; rfl)
      obtain ⟨hn1, hn2⟩ := hno scene hsc
      rw [scenePaths] at hpaths
      rw [hct] at hpaths
      simp only [if_neg (by simp : ¬ false = true), List.append_nil, List.mem_append] at hpaths
      rcases hpaths with hp1 | hp2
      · exact hn1 hp1
      · exact hn2 hp2
    · exact absurd heq (by decide)

/-- The scene of the C6 witness document. -/
def c6WScene : JVal := .obj [("collectibles", .arr [.obj []])]

/-- The C6 witness document: one scene with a non-empty collectibles list. -/
def c6WDoc : JVal := .obj [("scenes", .arr [c6WScene])]

/-- C6 witness: the amended theorem applied to `c6WDoc`, first half
instantiated with the concrete non-empty collectibles list. -/
theorem c6_witness : "Assets/Scripts/Collectible.cs" ∈ (["Assets/Scripts/Collectible.cs"] : List String) :=
  (c6_collectible_rule c6WDoc ["Assets/Scripts/Collectible.cs"] [] [c6WScene] rfl rfl).1
    ⟨c6WScene, List.mem_singleton_self _, .obj [], [], rfl⟩

/-! ## Claim C7 -/

/-- Document witnessing that claim C7 is false: its scenes list contains
the number `0`, and `scene.get("player")` raises `AttributeError`. -/
def c7Doc : JVal := .obj [("scenes", .arr [.num 0])]

/-- C7 counterexample: the resolver raises (models as `none`) on a
document whose scenes list contains a non-dictionary, refuting "for every
input document, the resolver completes without raising an error". -/
theorem c7_counterexample : determine_required_scripts c7Doc = none := rfl

/-- C7 (amended): the resolver completes without raising on every
well-formed document — scenes iterating to a list of dictionaries, each
scene's player a dictionary once defaulted, and each scene's enemies and
UI containers iterating to lists of dictionaries.  Within such documents,
absent or malformed scalar fields (e.g. a missing or non-string
controller) are silently skipped. -/
theorem c7_resolver_total (spec : JVal) (h : specWF spec = true) :
    (determine_required_scripts spec).isSome = true := by
  unfold specWF at h
  revert h
  cases hd : docScenes spec <;> intro h
  · exact absurd h (by simp)
  · rename_i scenes
    simp only [docScenes, Option.bind_eq_some] at hd
    obtain ⟨raw, h1, h2⟩ := hd
    obtain ⟨st, hst⟩ := Option.isSome_iff_exists.mp (optFoldl_sceneStep_isSome scenes ([], []) h)
    simp only [determine_required_scripts, h1, h2, Option.some_bind, hst]
    rfl

/-- The C7 witness document: well-formed, with every optional field in
use. -/
def c7WDoc : JVal :=
  .obj [("scenes", .arr [.obj [
    ("player", .obj [("controller", .str "P.cs")]),
    ("enemies", .arr [.obj []]),
    ("ui", .arr [.obj []])]])]

/-- C7 witness: `c7WDoc` is well-formed and the resolver returns on it. -/
theorem c7_witness : specWF c7WDoc = true ∧ (determine_required_scripts c7WDoc).isSome = true :=
  ⟨rfl, c7_resolver_total c7WDoc rfl⟩

/-! ## Claim C10 -/

/-- C10: the collected action names are exactly the whitespace-stripped
values of string onClick fields with non-whitespace content — a missing,
non-string or whitespace-only onClick contributes nothing — and the
collected set is duplicate-free, so two onClick values differing only in
surrounding whitespace yield one single action name. -/
theorem c10_onclick_collection (spec : JVal) (req clicks : List String) (scenes : List JVal)
    (h : determine_required_scripts spec = some (req, clicks))
    (hs : docScenes spec = some scenes) :
    (∀ n, n ∈ clicks ↔ ∃ scene ∈ scenes, ∃ uis, sceneUIs scene = some uis
        ∧ ∃ ui ∈ uis, ∃ s, dict_get ui "onClick" = some (.str s) ∧ pyStrip s = n ∧ n ≠ "")
    ∧ clicks.Nodup := by
  obtain ⟨_, hclk, _, hnod⟩ := resolver_spec spec req clicks scenes h hs
  refine ⟨?_, hnod⟩
  intro n
  rw [hclk]
  constructor
  · rintro ⟨scene, hsc, hmem⟩
    unfold sceneClicks at hmem
    cases hsu : sceneUIs scene with
    | none =>
      rw [hsu] at hmem
      simp at hmem
    | some uis =>
      rw [hsu] at hmem
      simp only [Option.getD_some] at hmem
      obtain ⟨ui, hui, hmem2⟩ := List.mem_flatMap.mp hmem
      unfold uiClicks at hmem2
      cases hoc : dict_get ui "onClick" with
      | none =>
        rw [hoc] at hmem2
        simp at hmem2
      | some v =>
        rw [hoc] at hmem2
        cases v with
        | str s =>
          have hmem3 : n ∈ (if pyStrip s = "" then ([] : List String) else [pyStrip s]) := hmem2
          by_cases hps : pyStrip s = ""
          · rw [if_pos hps] at hmem3
            exact absurd hmem3 (List.not_mem_nil _)
          · rw [if_neg hps] at hmem3
            have hn : n = pyStrip s := List.mem_singleton.mp hmem3
            exact ⟨scene, hsc, uis, hsu, ui, hui, s, hoc, hn.symm, by rw [hn]; exact hps⟩
        | null => exact absurd hmem2 (List.not_mem_nil _)
        | bool b => exact absurd hmem2 (List.not_mem_nil _)
        | num m => exact absurd hmem2 (List.not_mem_nil _)
        | arr l => exact absurd hmem2 (List.not_mem_nil _)
        | obj fs => exact absurd hmem2 (List.not_mem_nil _)
  · rintro ⟨scene, hsc, uis, hsu, ui, hui, s, hoc, hstr, hne⟩
    refine ⟨scene, hsc, ?_⟩
    unfold sceneClicks
    rw [hsu]
    simp only [Option.getD_some]
    refine List.mem_flatMap.mpr ⟨ui, hui, ?_⟩
    unfold uiClicks
    rw [hoc]
    subst hstr
    simp [hne]

/-- The scene of the C10 witness document. -/
def c10Scene : JVal :=
  .obj [("ui", .arr [
    .obj [("onClick", .str " Foo ")],
    .obj [("onClick", .str "Foo")],
    .obj [("onClick", .num 5)],
    .obj [],
    .obj [("onClick", .str "   ")]])]

/-- The C10 witness document: onClick values that are padded, plain,
non-string, missing and whitespace-only. -/
def c10Doc : JVal := .obj [("scenes", .arr [c10Scene])]

/-- C10 witness: the theorem applied to `c10Doc`, whose five UI entries
(` Foo `, `Foo`, the number `5`, nothing, and whitespace) collapse to the
single collected action name `"Foo"`. -/
theorem c10_witness :
    (∀ n, n ∈ (["Foo"] : List String) ↔ ∃ scene ∈ [c10Scene], ∃ uis, sceneUIs scene = some uis
        ∧ ∃ ui ∈ uis, ∃ s, dict_get ui "onClick" = some (.str s) ∧ pyStrip s = n ∧ n ≠ "")
    ∧ (["Foo"] : List String).Nodup :=
  c10_onclick_collection c10Doc ["Assets/Scripts/GameUIScripts.cs"] ["Foo"] [c10Scene] rfl rfl

/-! ## Claim C2 -/

/-- C2 counterexample: with a decoder that rejects every text (modelling a
`json.JSONDecodeError`), `generate_spec`'s text branch still produces a
specification document — the built-in fallback spec, a truthy (non-empty)
dictionary — instead of failing the request; `cmd_new` then forwards that
document to the spec-writing and script-generation stages unconditionally. -/
theorem c2_counterexample :
    generate_spec_from_text (fun _ => none) "p" "not json" = fallback_spec "p"
      ∧ truthy (fallback_spec "p") = true :=
  ⟨rfl, rfl⟩

/-- C2 (amended): whenever the stripped response text fails to decode as
JSON, `generate_spec` does not retry the service call; it returns the
built-in fallback specification document in place of the response, and
that document flows on to the later stages. -/
theorem c2_decode_failure_fallback (json_loads : String → Option JVal) (user_prompt raw : String)
    (h : json_loads (pyStrip raw) = none) :
    generate_spec_from_text json_loads user_prompt raw = fallback_spec user_prompt := by
  unfold generate_spec_from_text
  by_cases he : pyStrip raw = ""
  · simp [he]
  · simp [he, h]

/-- C2 witness: the amended theorem applied to a concrete failing decoder
and a concrete raw text. -/
theorem c2_witness :
    (fun _ : String => (none : Option JVal)) (pyStrip "not json") = none
      ∧ generate_spec_from_text (fun _ => none) "p2" "not json" = fallback_spec "p2" :=
  ⟨rfl, c2_decode_failure_fallback (fun _ => none) "p2" "not json" rfl⟩

/-! ## Claim C3 -/

/-- C3 counterexample: when schema validation fails (the `failed` outcome
of the try/except block), `cmd_new` still writes the document into the
output project and still derives scripts from it — here the fallback
document yields six script files — refuting "the document never reaches
the generation stage, is not written, and no scripts are derived". -/
theorem c3_counterexample :
    (cmd_new_after_spec (.failed "boom") (fallback_spec "p")).writtenSpec = fallback_spec "p"
      ∧ ((cmd_new_after_spec (.failed "boom") (fallback_spec "p")).scripts).map
          (fun l => l.map Prod.fst)
        = some ["Assets/Scripts/BatAI.cs", "Assets/Scripts/Collectible.cs",
                "Assets/Scripts/GameUIScripts.cs", "Assets/Scripts/PlayerController.cs",
                "Assets/Scripts/SlimeAI.cs", "Assets/Scripts/EnemyAI.cs"] :=
  ⟨rfl, rfl⟩

/-- C3 (amended): a schema-validation failure is caught and reported as a
warning only; `cmd_new` behaves exactly as on a successful validation —
the document is still written to the project and scripts are still
derived from it. -/
theorem c3_validation_warning_only (m : String) (spec : JVal) :
    cmd_new_after_spec (.failed m) spec = cmd_new_after_spec .ok spec
      ∧ (cmd_new_after_spec (.failed m) spec).writtenSpec = spec
      ∧ (cmd_new_after_spec (.failed m) spec).scripts = fallback_scripts spec :=
  ⟨rfl, rfl, rfl⟩

/-! ## Claim C8 -/

/-- C8 counterexample: a library file `pic.jpg` bears one of the four
extensions the claim names (`jpg`), yet the copy step copies nothing —
`copy_assets` only recognizes `.png` (and `.meta` sidecars). -/
theorem c8_counterexample :
    copy_assets true [⟨"pic.jpg", true⟩] = [] ∧ pySuffix "pic.jpg" = ".jpg" :=
  ⟨rfl, rfl⟩

/-- C8 (amended): the asset-copy step includes exactly the library files
whose suffix, lower-cased, is `.png` or `.meta`: every such file is
copied, and everything copied is such a file. -/
theorem c8_copied_assets (library : List DirEntry) :
    (∀ e ∈ library, e.isFile = true →
      (pyToLower (pySuffix e.name) = ".png" ∨ pyToLower (pySuffix e.name) = ".meta") →
      e.name ∈ copy_assets true library)
    ∧ (∀ n ∈ copy_assets true library, ∃ e ∈ library, e.name = n ∧ e.isFile = true
        ∧ (pyToLower (pySuffix e.name) = ".png" ∨ pyToLower (pySuffix e.name) = ".meta")) := by
  constructor
  · intro e he hf hs
    unfold copy_assets
    simp only [Bool.not_true, Bool.false_eq_true, if_false, List.mem_map]
    refine ⟨e, List.mem_filter.mpr ⟨he, ?_⟩, rfl⟩
    simp [hf]
    rcases hs with h1 | h1 <;> simp [h1]
  · intro n hn
    unfold copy_assets at hn
    simp only [Bool.not_true, Bool.false_eq_true, if_false, List.mem_map] at hn
    obtain ⟨e, hef, hname⟩ := hn
    obtain ⟨he, hcond⟩ := List.mem_filter.mp hef
    refine ⟨e, he, hname, ?_, ?_⟩
    · exact (Bool.and_eq_true _ _ |>.mp hcond).1
    · have h2 := (Bool.and_eq_true _ _ |>.mp hcond).2
      rcases Bool.or_eq_true _ _ |>.mp h2 with h3 | h3
      · exact Or.inl (by simpa using h3)
      · exact Or.inr (by simpa using h3)

/-- C8 witness: the amended theorem applied to a concrete library with a
`.png` file, a `.meta` sidecar, a `.jpg` file and a directory. -/
theorem c8_witness :
    "a.png" ∈ copy_assets true
      [⟨"a.png", true⟩, ⟨"a.png.meta", true⟩, ⟨"pic2.jpg", true⟩, ⟨"sub.png", false⟩] :=
  (c8_copied_assets [⟨"a.png", true⟩, ⟨"a.png.meta", true⟩, ⟨"pic2.jpg", true⟩, ⟨"sub.png", false⟩]).1
    ⟨"a.png", true⟩ (by simp) rfl (Or.inl rfl)

/-! ## Claim C9 -/

/-- Whether a generated-script dictionary has an entry named `SlimeAI.cs`
or `BatAI.cs` (the any-check of src/cli.py lines 378 and 524). -/
def hasSlimeOrBat (results : List (String × String)) : Bool :=
  results.any (fun p => pyPathName p.1 = "SlimeAI.cs" || pyPathName p.1 = "BatAI.cs")

theorem ensure_enemy_ai_base {results : List (String × String)}
    (h : hasSlimeOrBat (ensure_enemy_ai results) = true) :
    "Assets/Scripts/EnemyAI.cs" ∈ (ensure_enemy_ai results).map Prod.fst := by
  unfold ensure_enemy_ai at h ⊢
  split
  · simp
  · rename_i hc
    rw [if_neg hc] at h
    unfold hasSlimeOrBat at h
    simp only [Bool.and_eq_true, Bool.not_eq_true', not_and, Bool.not_eq_false] at hc
    have hb := hc h
    obtain ⟨p, hp, hp1⟩ := List.any_eq_true.mp hb
    rw [List.mem_map]
    exact ⟨p, hp, by simpa using hp1⟩

/-- C9: whenever the scripts produced by `generate_scripts` (with any
generation oracle) or by `_fallback_scripts` include a file named
`SlimeAI.cs` or `BatAI.cs`, they also include the entry
`Assets/Scripts/EnemyAI.cs` carrying the base class those templates
extend. -/
theorem c9_enemy_ai_base (gen : String → JVal → Option String) (spec : JVal)
    (out : List (String × String))
    (h : generate_scripts gen spec = some out ∨ fallback_scripts spec = some out)
    (hsb : hasSlimeOrBat out = true) :
    "Assets/Scripts/EnemyAI.cs" ∈ out.map Prod.fst := by
  rcases h with h | h
  · simp only [generate_scripts, Option.bind_eq_some, Option.some.injEq] at h
    obtain ⟨rc, hrc, hout⟩ := h
    subst hout
    exact ensure_enemy_ai_base hsb
  · simp only [fallback_scripts, Option.bind_eq_some, Option.some.injEq] at h
    obtain ⟨rc, hrc, hout⟩ := h
    subst hout
    exact ensure_enemy_ai_base hsb

/-- C9 witness: the fallback scripts of the built-in fallback spec contain
`SlimeAI.cs`, hence also the `EnemyAI.cs` base entry. -/
theorem c9_witness :
    ∃ out, fallback_scripts (fallback_spec "p") = some out
      ∧ hasSlimeOrBat out = true
      ∧ "Assets/Scripts/EnemyAI.cs" ∈ out.map Prod.fst := by
  refine ⟨_, rfl, rfl, ?_⟩
  exact c9_enemy_ai_base (fun _ _ => none) (fallback_spec "p") _ (Or.inr rfl) rfl
